import Mathlib

/-!
# Verification of the Eeko CLI dev-server relay core

A shallow embedding of the event relay and live-asset-injection subsystem of
the Eeko widget-development CLI:

* the WebSocket relay server (`DevWebSocketServer`: broadcast, message
  handling, connection close/error handling, sequential port probing);
* the injected runtime adapter (`LocalDevAdapter`: listener registry,
  mirrored state, reconnect backoff, readiness);
* the HTML rewrite layer (`isFullHtmlDocument`, `transformIndexHtml`,
  `wrapWidgetHtml`);
* the static test-event catalog (`TEST_EVENT_CATEGORIES`).

JavaScript strings are modelled as `List Char` (`Str`); JS `Map`s keyed by
strings are association lists; JS `Set`s of callbacks are duplicate-free
lists where a callback is identified by a numeric handle (`Handler`), its
behaviour supplied by an environment function at dispatch time; the
payload of a message is modelled as its JSON text.  Mutation becomes
explicit state passing, and what the code does via `this.emit(...)` or
`setTimeout` is returned as data (a notification list, a scheduled delay).
-/

namespace EekoCli

/-- WebSocket ready states (the `WebSocket.CONNECTING/OPEN/CLOSING/CLOSED`
constants of the platform). -/
inductive ReadyState
  | CONNECTING
  | OPEN
  | CLOSING
  | CLOSED
deriving DecidableEq

/-- The discriminant of a `DevEventMessage` (`type: 'event' | 'state' | 'command'`). -/
inductive MsgType
  | event
  | state
  | command
deriving DecidableEq

/-- The command names carried by a `command` message (`'init' | 'reset' | 'disconnect'`). -/
inductive CommandName
  | init
  | reset
  | disconnect
deriving DecidableEq

/-- A free-form string-keyed configuration mapping (`Record<string, unknown>`
whose values we keep as opaque JSON text). -/
abbrev StateMap := List (String × String)

/-- A partial state object sent in `state`/`command:init` messages: each of the
four mirrored-state keys may or may not be present (object spread merges the
present ones). -/
structure StatePatch where
  componentId : Option String := none
  userId : Option String := none
  globalConfig : Option StateMap := none
  variantConfig : Option StateMap := none
deriving DecidableEq

/-- The empty patch (the `{}` used for `message.state || {}`). -/
def StatePatch.empty : StatePatch := {}

/-- The wire unit exchanged on the relay channel (`DevEventMessage` in
`websocket-server.ts`).  The metadata field (timestamp/source) carries no
behaviour and is omitted. -/
structure DevEventMessage where
  type : MsgType
  event : Option String := none
  payload : Option String := none
  state : Option StatePatch := none
  command : Option CommandName := none
deriving DecidableEq

/-- A page-registered callback, identified by its (JS reference) identity;
its behaviour — normal return or thrown exception — is supplied by an
environment `Handler → String → Except String Unit` at dispatch time. -/
abbrev Handler := Nat

/-- What happened when one callback was invoked under the adapter's
per-callback `try`/`catch`: it returned, or it threw and the error was
logged. -/
inductive CallOutcome
  | ok
  | errorLogged
deriving DecidableEq

/-! ## The relay server (`DevWebSocketServer`, `src/unnamed/part_000`) -/

/-- One live connection tracked by the relay server.  `outbox` records, in
order, the messages the server wrote to this socket (a send appends). -/
structure Conn where
  cid : Nat
  readyState : ReadyState
  outbox : List DevEventMessage
deriving DecidableEq

/-- The relay server's mutable state: the set of active clients, modelled as
a list with pairwise-distinct `cid`s. -/
structure DevWebSocketServer where
  clients : List Conn
deriving DecidableEq

/-- Notifications the server emits to its host layer via `EventEmitter`. -/
inductive Notification
  | clientConnect (count : Nat)
  | clientDisconnect (count : Nat)
  | event (kind : Option String) (payload : Option String)
deriving DecidableEq

/-- Model of `ws.send(data)`: append the (serialized) message to the connection's outbox. -/
def Conn.send (c : Conn) (m : DevEventMessage) : Conn :=
  { c with outbox := c.outbox ++ [m] }

/-- Model of `broadcast(message)`: serialize once and send to every client whose
`readyState` is `OPEN`; other clients are skipped silently. -/
def DevWebSocketServer.broadcast (s : DevWebSocketServer) (m : DevEventMessage) :
    DevWebSocketServer :=
  { clients := s.clients.map fun c =>
      if c.readyState = ReadyState.OPEN then c.send m else c }

/-- Model of `handleMessage(message, ws)`: an inbound `event` message is re-broadcast
to all clients (the sender included, since it is in the client set) and an
`event` notification is emitted; `state`/`command` messages from a peer are
accepted but trigger nothing. -/
def DevWebSocketServer.handleMessage (s : DevWebSocketServer) (m : DevEventMessage) :
    DevWebSocketServer × List Notification :=
  if m.type = MsgType.event then
    (s.broadcast m, [Notification.event m.event m.payload])
  else
    (s, [])

/-- The `ws.on('close', ...)` handler: delete the client from the active set,
then emit `client:disconnect` with the new size. -/
def DevWebSocketServer.onClientClose (s : DevWebSocketServer) (cid : Nat) :
    DevWebSocketServer × List Notification :=
  let clients := s.clients.filter fun c => c.cid ≠ cid
  (⟨clients⟩, [Notification.clientDisconnect clients.length])

/-- The `ws.on('error', ...)` handler: log the error and delete the client
from the active set.  (Unlike the close handler, it emits nothing.) -/
def DevWebSocketServer.onClientError (s : DevWebSocketServer) (cid : Nat) :
    DevWebSocketServer × List Notification :=
  let clients := s.clients.filter fun c => c.cid ≠ cid
  (⟨clients⟩, [])

/-! ## Port probing (`createDevWebSocketServer`, `src/unnamed/part_000`) -/

/-- The outcome of trying to bind one port: success, `EADDRINUSE`, or some
other error (carrying its message). -/
inductive BindOutcome
  | ok
  | addrInUse
  | otherError (msg : String)
deriving DecidableEq

/-- The result of the probing loop: a server bound on a port, a rethrown
non-in-use bind error, or the exhaustion error
`No available port found starting from ${startPort}`. -/
inductive PortResult
  | server (port : Nat)
  | errorThrown (msg : String)
  | exhausted (startPort : Nat)
deriving DecidableEq

/-- The body of the `for (let i = 0; i < maxAttempts; i++)` loop: try the
current port; on success return the server; on `EADDRINUSE` advance to the
next port; on any other error rethrow it; when attempts run out, throw the
exhaustion error naming the start of the range. -/
def probePorts (bind : Nat → BindOutcome) (startPort : Nat) :
    Nat → Nat → PortResult
  | _, 0 => PortResult.exhausted startPort
  | port, remaining + 1 =>
    match bind port with
    | BindOutcome.ok => PortResult.server port
    | BindOutcome.addrInUse => probePorts bind startPort (port + 1) remaining
    | BindOutcome.otherError e => PortResult.errorThrown e

/-- The ports the loop actually attempts to bind, in order (each iteration
binds exactly its current port; the loop continues past it only on
`EADDRINUSE`). -/
def probedPorts (bind : Nat → BindOutcome) : Nat → Nat → List Nat
  | _, 0 => []
  | port, remaining + 1 =>
    port ::
      match bind port with
      | BindOutcome.addrInUse => probedPorts bind (port + 1) remaining
      | _ => []

/-- Model of `createDevWebSocketServer(startPort)`: sequential probing from
`startPort` with `maxAttempts = 100`. -/
def createDevWebSocketServer (bind : Nat → BindOutcome) (startPort : Nat) : PortResult :=
  probePorts bind startPort startPort 100

/-! ## The injected runtime adapter (`LocalDevAdapter`,
`src/src/server/vite-plugin.ts`, generated script) -/

/-- The fixed event-kind set (`EVENT_TYPES` in the generated adapter script). -/
def EVENT_TYPES : List String :=
  ["component_trigger",
   "component_update",
   "component_sync",
   "component_mount",
   "component_unmount",
   "chat_message",
   "variable_updated"]

/-- The per-adapter mirrored state (`this.state`). -/
structure MirroredState where
  componentId : String
  userId : String
  globalConfig : StateMap
  variantConfig : StateMap
deriving DecidableEq

/-- The default snapshot installed at construction and on `reset`. -/
def defaultMirroredState : MirroredState :=
  { componentId := "dev-component"
    userId := "dev-user"
    globalConfig := []
    variantConfig := [] }

/-- Model of `{ ...this.state, ...patch }`: the present fields of the patch override
the current snapshot. -/
def MirroredState.merge (s : MirroredState) (p : StatePatch) : MirroredState :=
  { componentId := p.componentId.getD s.componentId
    userId := p.userId.getD s.userId
    globalConfig := p.globalConfig.getD s.globalConfig
    variantConfig := p.variantConfig.getD s.variantConfig }

/-- The listener registry: a `Map` from event kind to a `Set` of callbacks,
modelled as an association list of duplicate-free handler lists. -/
abbrev ListenerRegistry := List (String × List Handler)

/-- Model of `Map.prototype.get`: the value at the first matching key, if any. -/
def registryGet (ls : ListenerRegistry) (k : String) : Option (List Handler) :=
  (ls.find? fun p => p.1 = k).map fun p => p.2

/-- Model of `Map.prototype.set`: replace the value at the key, appending a fresh
entry when the key is absent. -/
def registrySet (ls : ListenerRegistry) (k : String) (v : List Handler) :
    ListenerRegistry :=
  if ls.any (fun p => p.1 = k) then
    ls.map fun p => if p.1 = k then (k, v) else p
  else
    ls ++ [(k, v)]

/-- Model of `Set.prototype.add`: insert unless already present. -/
def setAdd (hs : List Handler) (h : Handler) : List Handler :=
  if h ∈ hs then hs else hs ++ [h]

/-- Model of `Set.prototype.delete`. -/
def setDelete (hs : List Handler) (h : Handler) : List Handler :=
  hs.filter fun x => x ≠ h

/-- The registry built in the constructor:
`EVENT_TYPES.forEach(type => this.listeners.set(type, new Set()))`. -/
def initialListeners : ListenerRegistry :=
  EVENT_TYPES.map fun t => (t, [])

/-- The adapter's instance state.  `wsReadyState` mirrors the transport's
ready state as the adapter's handlers observe it. -/
structure LocalDevAdapter where
  listeners : ListenerRegistry
  state : MirroredState
  isInitialized : Bool
  wsReadyState : ReadyState
  reconnectAttempts : Nat
deriving DecidableEq

/-- The constant `this.maxReconnectAttempts = 10`. -/
def maxReconnectAttempts : Nat := 10

/-- The constructor's state (after which `connect()` is called, leaving a
socket in the `CONNECTING` state). -/
def LocalDevAdapter.construct : LocalDevAdapter :=
  { listeners := initialListeners
    state := defaultMirroredState
    isInitialized := false
    wsReadyState := ReadyState.CONNECTING
    reconnectAttempts := 0 }

/-- Model of `attemptReconnect()`: while the budget is not exhausted, bump the attempt
counter and schedule `connect()` after `min(1000 * attempts, 5000)` ms
(returned as `some delay`); otherwise do nothing (`none`). -/
def LocalDevAdapter.attemptReconnect (a : LocalDevAdapter) :
    LocalDevAdapter × Option Nat :=
  if a.reconnectAttempts < maxReconnectAttempts then
    let n := a.reconnectAttempts + 1
    ({ a with reconnectAttempts := n }, some (min (1000 * n) 5000))
  else
    (a, none)

/-- The `ws.onopen` handler: the transport is now open, the attempt counter
is reset and — notably — the adapter marks itself initialized. -/
def LocalDevAdapter.onOpen (a : LocalDevAdapter) : LocalDevAdapter :=
  { a with
    wsReadyState := ReadyState.OPEN
    reconnectAttempts := 0
    isInitialized := true }

/-- The `ws.onclose` handler: the transport is closed, the adapter is marked
uninitialized, and a reconnect is attempted (the scheduled delay, if any, is
returned). -/
def LocalDevAdapter.onClose (a : LocalDevAdapter) : LocalDevAdapter × Option Nat :=
  LocalDevAdapter.attemptReconnect
    { a with wsReadyState := ReadyState.CLOSED, isInitialized := false }

/-- Model of `isReady()`: initialized and the transport actually open. -/
def LocalDevAdapter.isReady (a : LocalDevAdapter) : Bool :=
  a.isInitialized && a.wsReadyState = ReadyState.OPEN

/-- Model of `on(event, handler)`: add to the kind's pre-created set when the kind is
known; otherwise log a warning and change nothing (never throws). -/
def LocalDevAdapter.on (a : LocalDevAdapter) (event : String) (h : Handler) :
    LocalDevAdapter :=
  match registryGet a.listeners event with
  | some handlers =>
      { a with listeners := registrySet a.listeners event (setAdd handlers h) }
  | none => a

/-- Model of `off(event, handler)`. -/
def LocalDevAdapter.off (a : LocalDevAdapter) (event : String) (h : Handler) :
    LocalDevAdapter :=
  match registryGet a.listeners event with
  | some handlers =>
      { a with listeners := registrySet a.listeners event (setDelete handlers h) }
  | none => a

/-- Model of `getState()`: a shallow copy of the snapshot (value equality in the model). -/
def LocalDevAdapter.getState (a : LocalDevAdapter) : MirroredState :=
  a.state

/-- Invoke one callback under the dispatch loop's `try`/`catch`: a thrown
exception is caught and logged, never propagated. -/
def runCaught (env : Handler → String → Except String Unit) (h : Handler)
    (data : String) : CallOutcome :=
  match env h data with
  | Except.ok _ => CallOutcome.ok
  | Except.error _ => CallOutcome.errorLogged

/-- Model of `_emit(event, data)`: when the kind has a non-empty handler set, invoke
every handler in order, each under its own `try`/`catch`; the adapter's own
state is untouched.  Returns the per-callback outcomes in registration
order. -/
def LocalDevAdapter.emitTo (a : LocalDevAdapter)
    (env : Handler → String → Except String Unit) (event : String)
    (data : String) : List CallOutcome :=
  match registryGet a.listeners event with
  | some handlers =>
      if handlers.length > 0 then handlers.map (fun h => runCaught env h data)
      else []
  | none => []

/-- Model of `_setState(newState)`: shallow-merge into the mirrored snapshot. -/
def LocalDevAdapter.setStateMsg (a : LocalDevAdapter) (p : StatePatch) :
    LocalDevAdapter :=
  { a with state := a.state.merge p }

/-- Model of `_initialize(initialState)`: merge the provided state and mark
initialized. -/
def LocalDevAdapter.initialize (a : LocalDevAdapter) (p : StatePatch) :
    LocalDevAdapter :=
  { a with state := a.state.merge p, isInitialized := true }

/-- Model of `reset()`: clear every existing handler set, re-create the fixed-kind
registry, restore the default snapshot, and mark uninitialized. -/
def LocalDevAdapter.reset (a : LocalDevAdapter) : LocalDevAdapter :=
  let cleared : ListenerRegistry := a.listeners.map fun p => (p.1, [])
  let reinit := EVENT_TYPES.foldl (fun ls t => registrySet ls t []) cleared
  { a with
    listeners := reinit
    state := defaultMirroredState
    isInitialized := false }

/-- Model of `handleCommand(message)`: `init` merges `message.state || {}` and marks
initialized; `reset` resets; `disconnect` closes the socket (its ready state
moves to `CLOSING`; the close event follows asynchronously). -/
def LocalDevAdapter.handleCommand (a : LocalDevAdapter) (m : DevEventMessage) :
    LocalDevAdapter :=
  match m.command with
  | some CommandName.init => a.initialize (m.state.getD StatePatch.empty)
  | some CommandName.reset => a.reset
  | some CommandName.disconnect => { a with wsReadyState := ReadyState.CLOSING }
  | none => a

/-- The adapter's `handleMessage(message)`: dispatch on the type tag.  An
`event` message dispatches only when `message.event` is truthy (present and
non-empty) and `message.payload` is not `undefined`; a `state` message
merges only when `message.state` is present.  Returns the new adapter state
and the per-callback outcomes of any dispatch. -/
def LocalDevAdapter.handleMessage (a : LocalDevAdapter)
    (env : Handler → String → Except String Unit) (m : DevEventMessage) :
    LocalDevAdapter × List CallOutcome :=
  match m.type with
  | MsgType.event =>
      match m.event, m.payload with
      | some e, some p => if e = "" then (a, []) else (a, a.emitTo env e p)
      | _, _ => (a, [])
  | MsgType.state =>
      match m.state with
      | some st => (a.setStateMsg st, [])
      | none => (a, [])
  | MsgType.command => (a.handleCommand m, [])

/-! ## HTML rewrite layer (`vite-plugin.ts`) -/

/-- JavaScript strings, modelled by their character sequence. -/
abbrev Str := List Char

/-- Drop leading whitespace. -/
def trimLeft : Str → Str
  | [] => []
  | c :: cs => if c.isWhitespace then trimLeft cs else c :: cs

/-- Model of `String.prototype.trim`. -/
def trimStr (s : Str) : Str :=
  (trimLeft (trimLeft s).reverse).reverse

/-- Model of `String.prototype.toLowerCase` (ASCII case folding suffices here). -/
def lowerStr (s : Str) : Str :=
  s.map Char.toLower

/-- Model of `isFullHtmlDocument(html)`: after trimming and lower-casing, the text
starts with `<!doctype` or `<html`. -/
def isFullHtmlDocument (html : Str) : Bool :=
  let trimmed := lowerStr (trimStr html)
  "<!doctype".toList.isPrefixOf trimmed || "<html".toList.isPrefixOf trimmed

/-- Split a string at the first occurrence of `pat`: `some (pre, post)` with
`s = pre ++ pat ++ post` and `pre` shortest possible, or `none` when `pat`
does not occur. -/
def splitFirst (pat : Str) : Str → Option (Str × Str)
  | [] => if pat = [] then some ([], []) else none
  | c :: cs =>
    if pat.isPrefixOf (c :: cs) then some ([], (c :: cs).drop pat.length)
    else (splitFirst pat cs).map fun q => (c :: q.1, q.2)

/-- Model of `String.prototype.replace` with a string pattern: replace the first
occurrence only; when the pattern does not occur, return the string
unchanged. -/
def replaceFirst (s pat repl : Str) : Str :=
  match splitFirst pat s with
  | some (pre, post) => pre ++ repl ++ post
  | none => s

/-- The document shell text before the inlined adapter script in
`wrapWidgetHtml`. -/
def wrapHead : Str :=
  ("<!DOCTYPE html>\n<html lang=\"en\">\n<head>\n  <meta charset=\"UTF-8\">\n  <meta name=\"viewport\" content=\"width=device-width, initial-scale=1.0\">\n  <title>Widget Preview</title>\n  <link rel=\"stylesheet\" href=\"./style.css\">\n  <script>").toList

/-- The shell text between the adapter script and the widget content. -/
def wrapMid : Str :=
  ("</script>\n</head>\n<body>\n").toList

/-- The shell text after the widget content: the widget's own script
reference and the closing tags. -/
def wrapTail : Str :=
  ("\n  <script src=\"./script.js\"></script>\n</body>\n</html>").toList

/-- Model of `wrapWidgetHtml(widgetHtml, wsPort)`: wrap bare widget content in a full
document whose head inlines the adapter script and whose body holds the
content followed by a reference to the widget's script asset. -/
def wrapWidgetHtml (widgetHtml : Str) (sdkScript : Str) : Str :=
  wrapHead ++ sdkScript ++ wrapMid ++ widgetHtml ++ wrapTail

/-- The `let processedHtml` step of `transformIndexHtml`: template
substitution runs only when an engine is configured. -/
def processedOf (templateEngine : Option (Str → Str)) (html : Str) : Str :=
  match templateEngine with
  | some engine => engine html
  | none => html

/-- The `transformIndexHtml` hook of the `eeko-widget-wrapper` plugin:
run template substitution when an engine is configured, then either inject
the adapter script after the (first) `<head>` of a full document, or wrap
bare widget content.  `sdkScript` stands for the generated
`getLocalDevAdapterScript(wsPort)` text. -/
def transformIndexHtml (templateEngine : Option (Str → Str)) (sdkScript : Str)
    (html : Str) : Str :=
  if isFullHtmlDocument (processedOf templateEngine html) then
    replaceFirst (processedOf templateEngine html) "<head>".toList
      ("<head><script>".toList ++ sdkScript ++ "</script>".toList)
  else
    wrapWidgetHtml (processedOf templateEngine html) sdkScript

/-! ## The static test-event catalog (`src/src/test-events/categories.ts`) -/

/-- A catalog entry pairing a label, an optional shortcut and an event-kind
tag.  The payload-generator function carries no behaviour relevant here and
is omitted. -/
structure TestEventDefinition where
  id : String
  label : String
  shortcut : Option String := none
  event : String
deriving DecidableEq

/-- A two-level grouping of catalog entries. -/
structure TestEventCategory where
  id : String
  label : String
  events : List TestEventDefinition
deriving DecidableEq

/-- The table `TEST_EVENT_CATEGORIES`, transcribed from the source. -/
def TEST_EVENT_CATEGORIES : List TestEventCategory :=
  [{ id := "chat"
     label := "Chat Messages"
     events :=
      [{ id := "twitch-chat", label := "Twitch Chat", shortcut := some "1",
         event := "chat_message" },
       { id := "youtube-chat", label := "YouTube Chat", shortcut := some "2",
         event := "chat_message" },
       { id := "kick-chat", label := "Kick Chat", shortcut := some "3",
         event := "chat_message" }] },
   { id := "subscriptions"
     label := "Subscriptions"
     events :=
      [{ id := "twitch-sub-t1", label := "Twitch Sub (T1)", shortcut := some "4",
         event := "subscription_event" },
       { id := "twitch-sub-t2", label := "Twitch Sub (T2)",
         event := "subscription_event" },
       { id := "twitch-sub-t3", label := "Twitch Sub (T3)",
         event := "subscription_event" },
       { id := "twitch-gift", label := "Twitch Gift Sub", shortcut := some "5",
         event := "subscription_event" },
       { id := "twitch-resub", label := "Twitch Re-sub",
         event := "subscription_event" },
       { id := "youtube-member", label := "YouTube Member", shortcut := some "6",
         event := "subscription_event" },
       { id := "youtube-gift", label := "YouTube Gift",
         event := "subscription_event" },
       { id := "kick-sub", label := "Kick Sub", shortcut := some "7",
         event := "subscription_event" },
       { id := "kick-gift", label := "Kick Gift Sub",
         event := "subscription_event" }] },
   { id := "monetary"
     label := "Monetary"
     events :=
      [{ id := "bits-100", label := "Twitch Bits (100)", shortcut := some "8",
         event := "monetary_event" },
       { id := "bits-500", label := "Twitch Bits (500)",
         event := "monetary_event" },
       { id := "bits-1000", label := "Twitch Bits (1000)",
         event := "monetary_event" }] },
   { id := "engagement"
     label := "Engagement"
     events :=
      [{ id := "follow", label := "Twitch Follow", shortcut := some "9",
         event := "engagement_event" }] },
   { id := "component"
     label := "Component"
     events :=
      [{ id := "trigger", label := "Trigger", shortcut := some "0",
         event := "component_trigger" },
       { id := "mount", label := "Mount",
         event := "component_mount" },
       { id := "unmount", label := "Unmount",
         event := "component_unmount" }] }]

/-! ## Supporting lemmas -/

theorem registryGet_map_replace_self (ls : ListenerRegistry) (k : String)
    (v : List Handler) (h : ls.any (fun p => p.1 = k)) :
    registryGet (ls.map fun p => if p.1 = k then (k, v) else p) k = some v := by
  induction ls with
  | nil => simp at h
  | cons p ps ih =>
    by_cases hp : p.1 = k
    · simp [registryGet, hp, List.find?_cons_of_pos]
    · simp only [List.any_cons, Bool.or_eq_true, decide_eq_true_eq, hp,
        false_or] at h
      simpa [registryGet, hp, List.find?_cons_of_neg] using ih h

theorem registryGet_map_replace_other (ls : ListenerRegistry) (k k' : String)
    (v : List Handler) (h : k' ≠ k) :
    registryGet (ls.map fun p => if p.1 = k then (k, v) else p) k' =
      registryGet ls k' := by
  induction ls with
  | nil => simp [registryGet]
  | cons p ps ih =>
    by_cases hp : p.1 = k
    · have hp' : ¬ p.1 = k' := by rw [hp]; exact fun hh => h hh.symm
      have hk' : ¬ (k = k') := fun hh => h hh.symm
      simpa [registryGet, hp, hp', hk', List.find?_cons_of_neg]
        using ih
    · by_cases hq : p.1 = k'
      · simp [registryGet, hp, hq, h, List.find?_cons_of_pos]
      · simpa [registryGet, hp, hq, List.find?_cons_of_neg] using ih

theorem registryGet_append_single_self (ls : ListenerRegistry) (k : String)
    (v : List Handler) (h : ¬ ls.any (fun p => p.1 = k)) :
    registryGet (ls ++ [(k, v)]) k = some v := by
  induction ls with
  | nil => simp [registryGet, List.find?_cons_of_pos]
  | cons p ps ih =>
    simp only [List.any_cons, Bool.or_eq_true, decide_eq_true_eq, not_or] at h
    simpa [registryGet, h.1, List.find?_cons_of_neg]
      using ih (by simpa using h.2)

theorem registryGet_append_single_other (ls : ListenerRegistry) (k k' : String)
    (v : List Handler) (h : k' ≠ k) :
    registryGet (ls ++ [(k, v)]) k' = registryGet ls k' := by
  induction ls with
  | nil =>
    have : ¬ ((k, v).1 = k') := fun hh => h hh.symm
    simp [registryGet, this, List.find?_cons_of_neg]
  | cons p ps ih =>
    by_cases hq : p.1 = k'
    · simp [registryGet, hq, List.find?_cons_of_pos]
    · simpa [registryGet, hq, List.find?_cons_of_neg] using ih

theorem registryGet_set_self (ls : ListenerRegistry) (k : String) (v : List Handler) :
    registryGet (registrySet ls k v) k = some v := by
  rw [registrySet]
  by_cases hany : ls.any (fun p => p.1 = k)
  · rw [if_pos hany]; exact registryGet_map_replace_self ls k v hany
  · rw [if_neg hany]; exact registryGet_append_single_self ls k v hany

theorem registryGet_set_other (ls : ListenerRegistry) (k k' : String)
    (v : List Handler) (h : k' ≠ k) :
    registryGet (registrySet ls k v) k' = registryGet ls k' := by
  rw [registrySet]
  by_cases hany : ls.any (fun p => p.1 = k)
  · rw [if_pos hany]; exact registryGet_map_replace_other ls k k' v h
  · rw [if_neg hany]; exact registryGet_append_single_other ls k k' v h

theorem registryGet_none_of_not_mem (ls : ListenerRegistry) (k : String)
    (h : k ∉ ls.map Prod.fst) : registryGet ls k = none := by
  induction ls with
  | nil => simp [registryGet]
  | cons p ps ih =>
    simp only [List.map_cons, List.mem_cons, not_or] at h
    have hp : ¬ p.1 = k := fun hh => h.1 hh.symm
    simpa [registryGet, List.find?_cons, hp] using ih h.2

theorem registryGet_foldl_set_empty (l : List String) (m : ListenerRegistry)
    (t : String) (h : registryGet m t = some [] ∨ t ∈ l) :
    registryGet (l.foldl (fun ls t => registrySet ls t []) m) t = some [] := by
  induction l generalizing m with
  | nil => simpa using h.resolve_right (by simp)
  | cons x xs ih =>
    rw [List.foldl_cons]
    apply ih
    rcases h with h | h
    · by_cases hx : t = x
      · subst hx; exact Or.inl (registryGet_set_self ..)
      · exact Or.inl ((registryGet_set_other _ _ _ _ hx).trans h)
    · rcases List.mem_cons.mp h with rfl | h
      · exact Or.inl (registryGet_set_self ..)
      · exact Or.inr h

theorem splitFirst_append (pat : Str) :
    ∀ (s pre post : Str), splitFirst pat s = some (pre, post) →
      s = pre ++ pat ++ post := by
  intro s
  induction s with
  | nil =>
    intro pre post h
    by_cases hp : pat = ([] : Str)
    · subst hp
      rw [splitFirst, if_pos rfl] at h
      injection h with h'
      injection h' with h1 h2
      simp [← h1, ← h2]
    · simp [splitFirst, hp] at h
  | cons c cs ih =>
    intro pre post h
    rw [splitFirst] at h
    by_cases hp : pat.isPrefixOf (c :: cs)
    · rw [if_pos hp, Option.some_inj] at h
      have hpre : pat <+: (c :: cs) := by
        rwa [List.isPrefixOf_iff_prefix] at hp
      obtain ⟨t, ht⟩ := hpre
      have hdrop : (c :: cs).drop pat.length = t := by
        rw [← ht]; exact List.drop_left pat t
      have h1 : pre = ([] : Str) := by
        have := congrArg Prod.fst h; simpa using this.symm
      have h2 : post = (c :: cs).drop pat.length := by
        have := congrArg Prod.snd h; simpa using this.symm
      rw [h1, h2, hdrop, List.nil_append, ht]
    · rw [if_neg hp] at h
      cases hsf : splitFirst pat cs with
      | none => rw [hsf] at h; simp at h
      | some q =>
        rw [hsf] at h
        simp only [Option.map_some', Option.some_inj] at h
        have h1 : pre = c :: q.1 := by
          have := congrArg Prod.fst h; simpa using this.symm
        have h2 : post = q.2 := by
          have := congrArg Prod.snd h; simpa using this.symm
        have := ih q.1 q.2 (by rw [hsf])
        rw [h1, h2]
        simpa using congrArg (c :: ·) this

theorem splitFirst_none_no_occurrence (pat : Str) :
    ∀ (s : Str), splitFirst pat s = none →
      ∀ pre post : Str, s ≠ pre ++ pat ++ post := by
  intro s
  induction s with
  | nil =>
    intro h pre post heq
    by_cases hp : pat = ([] : Str)
    · subst hp; simp [splitFirst] at h
    · have hlen := congrArg List.length heq
      have : pat.length ≠ 0 := fun hz => hp (List.length_eq_zero.mp hz)
      simp [List.length_append] at hlen
      omega
  | cons c cs ih =>
    intro h pre post heq
    rw [splitFirst] at h
    by_cases hp : pat.isPrefixOf (c :: cs)
    · rw [if_pos hp] at h; simp at h
    · rw [if_neg hp] at h
      cases pre with
      | nil =>
        apply hp
        rw [List.isPrefixOf_iff_prefix]
        exact ⟨post, by simpa using heq.symm⟩
      | cons d pre' =>
        have hc : c = d := by simpa using congrArg (fun l => l.headI) heq
        have hcs : cs = pre' ++ pat ++ post := by
          simpa using congrArg List.tail heq
        cases hsf : splitFirst pat cs with
        | some q => rw [hsf] at h; simp at h
        | none => exact ih hsf pre' post hcs

theorem splitFirst_min (pat : Str) :
    ∀ (s pre post : Str), splitFirst pat s = some (pre, post) →
      ∀ pre2 post2 : Str, s = pre2 ++ pat ++ post2 →
        pre.length ≤ pre2.length := by
  intro s
  induction s with
  | nil =>
    intro pre post h pre2 post2 _
    by_cases hp : pat = ([] : Str)
    · subst hp
      rw [splitFirst, if_pos rfl] at h
      injection h with h'
      injection h' with h1 h2
      simp [← h1]
    · simp [splitFirst, hp] at h
  | cons c cs ih =>
    intro pre post h pre2 post2 heq
    rw [splitFirst] at h
    by_cases hp : pat.isPrefixOf (c :: cs)
    · rw [if_pos hp, Option.some_inj] at h
      have h1 : pre = ([] : Str) := by
        have := congrArg Prod.fst h; simpa using this.symm
      simp [h1]
    · rw [if_neg hp] at h
      cases hsf : splitFirst pat cs with
      | none => rw [hsf] at h; simp at h
      | some q =>
        rw [hsf] at h
        simp only [Option.map_some', Option.some_inj] at h
        have h1 : pre = c :: q.1 := by
          have := congrArg Prod.fst h; simpa using this.symm
        cases pre2 with
        | nil =>
          exfalso
          apply hp
          rw [List.isPrefixOf_iff_prefix]
          exact ⟨post2, by simpa using heq.symm⟩
        | cons d pre2' =>
          have hcs : cs = pre2' ++ pat ++ post2 := by
            simpa using congrArg List.tail heq
          have := ih q.1 q.2 (by rw [hsf]) pre2' post2 hcs
          simp [h1]
          omega

/-! ## Claim theorems -/

/-- A registry whose key set is exactly the fixed event-kind list, as
established by the constructor; `on`/`off`/`reset` never create other keys. -/
def wellFormedListeners (a : LocalDevAdapter) : Prop :=
  a.listeners.map Prod.fst = EVENT_TYPES

theorem construct_wellFormed : wellFormedListeners LocalDevAdapter.construct := rfl

/-- C1 (counterexample): an adapter whose transport just opened and which has
processed no message at all — in particular no `command:init` — already
reports `isReady() = true`, because the `onopen` handler itself sets the
initialized flag.  The claim requires `isReady() = false` here. -/
theorem isReady_true_without_init_cex :
    LocalDevAdapter.construct.onOpen.wsReadyState = ReadyState.OPEN ∧
    LocalDevAdapter.construct.onOpen.isReady = true :=
  ⟨rfl, rfl⟩

/-- C1 (amended): `isReady()` is true only when the initialized flag is set
and the transport is open; but the `onopen` handler itself marks the adapter
initialized, so after the transport opens `isReady()` is true even though no
`command:init` was received, and `isReady()` is false whenever the transport
is not open or the adapter is not marked initialized. -/
theorem isReady_open_and_initialized (a : LocalDevAdapter) :
    a.onOpen.isReady = true ∧
    (a.wsReadyState ≠ ReadyState.OPEN → a.isReady = false) ∧
    (a.isInitialized = false → a.isReady = false) := by
  refine ⟨?_, ?_, ?_⟩
  · simp [LocalDevAdapter.isReady, LocalDevAdapter.onOpen]
  · intro h; simp [LocalDevAdapter.isReady, h]
  · intro h; simp [LocalDevAdapter.isReady, h]

/-- Witness for `isReady_open_and_initialized` at the freshly constructed
adapter (transport still connecting). -/
theorem isReady_open_and_initialized_witness :
    LocalDevAdapter.construct.onOpen.isReady = true ∧
    LocalDevAdapter.construct.isReady = false :=
  ⟨(isReady_open_and_initialized LocalDevAdapter.construct).1,
   (isReady_open_and_initialized LocalDevAdapter.construct).2.1 (by decide)⟩

/-- C5: on reconnect attempt `n` (`1 ≤ n ≤ 10`) the adapter bumps the
attempt counter to `n` and schedules `connect()` after
`min(1000·n, 5000)` ms; once the ten-attempt budget is spent it schedules
nothing. -/
theorem reconnect_backoff (a : LocalDevAdapter) (n : Nat) :
    (1 ≤ n → n ≤ 10 → a.reconnectAttempts = n - 1 →
      a.attemptReconnect =
        ({ a with reconnectAttempts := n }, some (min (1000 * n) 5000))) ∧
    (maxReconnectAttempts ≤ a.reconnectAttempts →
      a.attemptReconnect = (a, none)) := by
  constructor
  · intro h1 h2 h3
    have hmax : maxReconnectAttempts = 10 := rfl
    have hlt : a.reconnectAttempts < maxReconnectAttempts := by omega
    rw [LocalDevAdapter.attemptReconnect, if_pos hlt]
    have hn : a.reconnectAttempts + 1 = n := by omega
    rw [hn]
  · intro h
    rw [LocalDevAdapter.attemptReconnect, if_neg (by omega)]

/-- Witness for `reconnect_backoff`: the third attempt is scheduled after
3000 ms, and an adapter that has used its whole budget schedules nothing. -/
theorem reconnect_backoff_witness :
    ({ LocalDevAdapter.construct with reconnectAttempts := 2 } :
        LocalDevAdapter).attemptReconnect =
      ({ LocalDevAdapter.construct with reconnectAttempts := 3 }, some 3000) ∧
    ({ LocalDevAdapter.construct with reconnectAttempts := 10 } :
        LocalDevAdapter).attemptReconnect =
      ({ LocalDevAdapter.construct with reconnectAttempts := 10 }, none) := by
  constructor
  · have h :=
      (reconnect_backoff
        { LocalDevAdapter.construct with reconnectAttempts := 2 } 3).1
        (by omega) (by omega) rfl
    simpa using h
  · exact
      (reconnect_backoff
        { LocalDevAdapter.construct with reconnectAttempts := 10 } 0).2
        (by decide)

/-- C6: after the adapter processes a `command:reset` message, every kind of
the fixed event-kind set is present in the registry with an empty callback
set, `getState()` is the default snapshot, and the adapter is marked
not-initialized. -/
theorem reset_restores_defaults (a : LocalDevAdapter)
    (env : Handler → String → Except String Unit) (m : DevEventMessage)
    (h1 : m.type = MsgType.command) (h2 : m.command = some CommandName.reset) :
    (∀ t ∈ EVENT_TYPES,
       registryGet (a.handleMessage env m).1.listeners t = some []) ∧
    (a.handleMessage env m).1.getState = defaultMirroredState ∧
    (a.handleMessage env m).1.isInitialized = false := by
  obtain ⟨ty, ev, pl, st, cmd⟩ := m
  obtain rfl : ty = MsgType.command := h1
  obtain rfl : cmd = some CommandName.reset := h2
  have hm :
      (a.handleMessage env
        ⟨MsgType.command, ev, pl, st, some CommandName.reset⟩).1 = a.reset := rfl
  rw [hm]
  refine ⟨?_, rfl, rfl⟩
  intro t ht
  show registryGet
      (EVENT_TYPES.foldl (fun ls t => registrySet ls t [])
        (a.listeners.map fun p => (p.1, []))) t = some []
  exact registryGet_foldl_set_empty EVENT_TYPES _ t (Or.inr ht)

/-- Witness for `reset_restores_defaults`: an adapter with a registered
`chat_message` listener and a patched state is restored to defaults by a
`command:reset` message. -/
theorem reset_restores_defaults_witness :
    registryGet
        ((((LocalDevAdapter.construct.onOpen.on "chat_message" 7).setStateMsg
            { componentId := some "c1" }).handleMessage
          (fun _ _ => Except.ok ())
          ⟨MsgType.command, none, none, none, some CommandName.reset⟩).1).listeners
        "chat_message" = some [] ∧
    ((((LocalDevAdapter.construct.onOpen.on "chat_message" 7).setStateMsg
        { componentId := some "c1" }).handleMessage
      (fun _ _ => Except.ok ())
      ⟨MsgType.command, none, none, none, some CommandName.reset⟩).1).getState =
      defaultMirroredState := by
  have h := reset_restores_defaults
    ((LocalDevAdapter.construct.onOpen.on "chat_message" 7).setStateMsg
      { componentId := some "c1" })
    (fun _ _ => Except.ok ())
    ⟨MsgType.command, none, none, none, some CommandName.reset⟩ rfl rfl
  exact ⟨h.1 "chat_message" (by decide), h.2.1⟩

/-- C8: dispatching an event runs every registered callback for the kind in
registration order, each under its own `try`/`catch` (`runCaught`), so a
throwing callback is logged and does not stop the remaining callbacks; and
processing an `event` message never changes the adapter's state, so future
dispatches are unaffected. -/
theorem emit_runs_all_callbacks (a : LocalDevAdapter)
    (env : Handler → String → Except String Unit) (k : String) (d : String)
    (hs : List Handler) (h : registryGet a.listeners k = some hs) :
    a.emitTo env k d = hs.map (fun c => runCaught env c d) ∧
    (∀ m : DevEventMessage, m.type = MsgType.event →
       (a.handleMessage env m).1 = a) := by
  constructor
  · rw [LocalDevAdapter.emitTo, h]
    show (if hs.length > 0 then hs.map (fun h => runCaught env h d) else []) =
      hs.map (fun c => runCaught env c d)
    by_cases hl : hs.length > 0
    · rw [if_pos hl]
    · rw [if_neg hl]
      have hnil : hs = [] := List.length_eq_zero.mp (by omega)
      simp [hnil]
  · intro m hm
    obtain ⟨ty, ev, pl, st, cmd⟩ := m
    obtain rfl : ty = MsgType.event := hm
    cases ev with
    | none => rfl
    | some e =>
      cases pl with
      | none => rfl
      | some p =>
        show (if e = "" then (a, ([] : List CallOutcome))
              else (a, a.emitTo env e p)).1 = a
        split <;> rfl

/-- Witness for `emit_runs_all_callbacks`: two `chat_message` callbacks, the
first of which throws; both are invoked, the first logged as an error. -/
theorem emit_runs_all_callbacks_witness :
    ((LocalDevAdapter.construct.on "chat_message" 0).on "chat_message" 1).emitTo
        (fun h _ => if h = 0 then Except.error "boom" else Except.ok ())
        "chat_message" "hi" =
      [CallOutcome.errorLogged, CallOutcome.ok] := by
  have h := (emit_runs_all_callbacks
    ((LocalDevAdapter.construct.on "chat_message" 0).on "chat_message" 1)
    (fun h _ => if h = 0 then Except.error "boom" else Except.ok ())
    "chat_message" "hi" [0, 1] (by decide)).1
  rw [h]
  decide

/-- C9: registering a callback under an event kind that is not in the fixed
pre-created set is a no-op — the adapter state is unchanged (the code logs a
warning and cannot throw), so dispatch for every kind behaves as before. -/
theorem on_unknown_kind_rejected (a : LocalDevAdapter) (k : String)
    (c : Handler) (hw : wellFormedListeners a) (hk : k ∉ EVENT_TYPES) :
    a.on k c = a ∧
    (∀ env k' d, (a.on k c).emitTo env k' d = a.emitTo env k' d) := by
  have hnone : registryGet a.listeners k = none :=
    registryGet_none_of_not_mem _ _ (by rw [hw]; exact hk)
  have h1 : a.on k c = a := by
    rw [LocalDevAdapter.on, hnone]
  exact ⟨h1, fun env k' d => by rw [h1]⟩

/-- Witness for `on_unknown_kind_rejected` at a freshly constructed adapter
and the unknown kind `subscription_event`. -/
theorem on_unknown_kind_rejected_witness :
    LocalDevAdapter.construct.on "subscription_event" 0 =
      LocalDevAdapter.construct :=
  (on_unknown_kind_rejected LocalDevAdapter.construct "subscription_event" 0
    construct_wellFormed (by decide)).1

/-- C10: the fixed event-kind set is exactly the seven listed kinds; the
kinds `subscription_event`, `monetary_event` and `engagement_event` are not
in it, while the static test-event catalog assigns exactly those kinds to
its subscription, monetary and engagement definitions; and for any kind
outside the fixed set, `on` rejects the registration (no state change, no
exception) and dispatch invokes no callback. -/
theorem unknown_kinds_and_catalog (a : LocalDevAdapter) (k : String)
    (c : Handler) :
    EVENT_TYPES =
      ["component_trigger", "component_update", "component_sync",
       "component_mount", "component_unmount", "chat_message",
       "variable_updated"] ∧
    ("subscription_event" ∉ EVENT_TYPES ∧ "monetary_event" ∉ EVENT_TYPES ∧
      "engagement_event" ∉ EVENT_TYPES) ∧
    (∀ cat ∈ TEST_EVENT_CATEGORIES, ∀ d ∈ cat.events,
       (cat.id = "subscriptions" → d.event = "subscription_event") ∧
       (cat.id = "monetary" → d.event = "monetary_event") ∧
       (cat.id = "engagement" → d.event = "engagement_event")) ∧
    (wellFormedListeners a → k ∉ EVENT_TYPES →
       a.on k c = a ∧ ∀ env d, a.emitTo env k d = []) := by
  refine ⟨rfl, by decide, by decide, ?_⟩
  intro hw hk
  have hnone : registryGet a.listeners k = none :=
    registryGet_none_of_not_mem _ _ (by rw [hw]; exact hk)
  constructor
  · rw [LocalDevAdapter.on, hnone]
  · intro env d
    rw [LocalDevAdapter.emitTo, hnone]

/-- Witness for `unknown_kinds_and_catalog`: registering and dispatching
`monetary_event` on a fresh adapter does nothing. -/
theorem unknown_kinds_and_catalog_witness :
    LocalDevAdapter.construct.on "monetary_event" 3 =
      LocalDevAdapter.construct ∧
    LocalDevAdapter.construct.emitTo (fun _ _ => Except.ok ())
      "monetary_event" "x" = [] := by
  have h := (unknown_kinds_and_catalog LocalDevAdapter.construct
    "monetary_event" 3).2.2.2 construct_wellFormed (by decide)
  exact ⟨h.1, h.2 _ "x"⟩

/-- C2: an inbound message of type `event` is broadcast verbatim: the client
count is unchanged, an `event` notification carrying the kind and payload is
emitted, every client in the open state — the sender included, since it is
in the client set — gets the message appended to its outbox, and every
client not in the open state is left untouched; inbound `state`/`command`
messages trigger no broadcast and no notification. -/
theorem relay_event_broadcast (s : DevWebSocketServer) (m : DevEventMessage) :
    (m.type = MsgType.event →
      ((s.handleMessage m).1.clients.length = s.clients.length ∧
       (s.handleMessage m).2 = [Notification.event m.event m.payload] ∧
       ∀ c ∈ s.clients,
         (c.readyState = ReadyState.OPEN →
            { c with outbox := c.outbox ++ [m] } ∈
              (s.handleMessage m).1.clients) ∧
         (c.readyState ≠ ReadyState.OPEN →
            c ∈ (s.handleMessage m).1.clients))) ∧
    (m.type ≠ MsgType.event → s.handleMessage m = (s, [])) := by
  constructor
  · intro hm
    rw [DevWebSocketServer.handleMessage, if_pos hm]
    refine ⟨by simp [DevWebSocketServer.broadcast], rfl, ?_⟩
    intro c hc
    constructor
    · intro hopen
      have hmem := List.mem_map_of_mem
        (fun c => if c.readyState = ReadyState.OPEN then c.send m else c) hc
      simpa [DevWebSocketServer.broadcast, hopen, Conn.send] using hmem
    · intro hclosed
      have hmem := List.mem_map_of_mem
        (fun c => if c.readyState = ReadyState.OPEN then c.send m else c) hc
      simpa [DevWebSocketServer.broadcast, hclosed] using hmem
  · intro hm
    rw [DevWebSocketServer.handleMessage, if_neg hm]

/-- Witness for `relay_event_broadcast`: a two-client server (one open, one
closed) broadcasting an inbound `chat_message` event. -/
theorem relay_event_broadcast_witness :
    (({ cid := 0, readyState := ReadyState.OPEN,
        outbox := [⟨MsgType.event, some "chat_message", some "hi", none, none⟩] } :
          Conn) ∈
      ((⟨[⟨0, ReadyState.OPEN, []⟩, ⟨1, ReadyState.CLOSED, []⟩]⟩ :
          DevWebSocketServer).handleMessage
        ⟨MsgType.event, some "chat_message", some "hi", none, none⟩).1.clients) ∧
    ((⟨1, ReadyState.CLOSED, []⟩ : Conn) ∈
      ((⟨[⟨0, ReadyState.OPEN, []⟩, ⟨1, ReadyState.CLOSED, []⟩]⟩ :
          DevWebSocketServer).handleMessage
        ⟨MsgType.event, some "chat_message", some "hi", none, none⟩).1.clients) ∧
    ((⟨[⟨0, ReadyState.OPEN, []⟩, ⟨1, ReadyState.CLOSED, []⟩]⟩ :
        DevWebSocketServer).handleMessage
      ⟨MsgType.event, some "chat_message", some "hi", none, none⟩).2 =
      [Notification.event (some "chat_message") (some "hi")] := by
  have h := (relay_event_broadcast
    (⟨[⟨0, ReadyState.OPEN, []⟩, ⟨1, ReadyState.CLOSED, []⟩]⟩ :
      DevWebSocketServer)
    ⟨MsgType.event, some "chat_message", some "hi", none, none⟩).1 rfl
  refine ⟨?_, ?_, h.2.1⟩
  · have := (h.2.2 ⟨0, ReadyState.OPEN, []⟩ (by simp)).1 rfl
    simpa using this
  · exact (h.2.2 ⟨1, ReadyState.CLOSED, []⟩ (by simp)).2 (by decide)

/-- C7 (counterexample): a connection error removes the client from the
active set but — unlike the close handler — emits nothing: no
`client:disconnect` notification carrying the new count 0 is produced,
contradicting the claim that an error emits one. -/
theorem client_error_emits_nothing_cex :
    ((⟨[⟨0, ReadyState.OPEN, []⟩]⟩ : DevWebSocketServer).onClientError
        0).1.clients = [] ∧
    ((⟨[⟨0, ReadyState.OPEN, []⟩]⟩ : DevWebSocketServer).onClientError 0).2 =
      [] ∧
    Notification.clientDisconnect 0 ∉
      ((⟨[⟨0, ReadyState.OPEN, []⟩]⟩ : DevWebSocketServer).onClientError 0).2 := by
  decide

/-- C7 (amended): on close the connection is removed from the active set and
a `client:disconnect` notification carrying the new count is emitted; on
error the connection is removed but nothing is emitted (the notification
comes only from the close event); in both cases every other connection stays
in the active set and the server keeps running. -/
theorem close_error_prune_clients (s : DevWebSocketServer) (cid : Nat) :
    (∀ c ∈ s.clients, c.cid ≠ cid →
       c ∈ (s.onClientClose cid).1.clients ∧
       c ∈ (s.onClientError cid).1.clients) ∧
    (∀ c ∈ (s.onClientClose cid).1.clients, c.cid ≠ cid) ∧
    (∀ c ∈ (s.onClientError cid).1.clients, c.cid ≠ cid) ∧
    (s.onClientClose cid).2 =
      [Notification.clientDisconnect (s.onClientClose cid).1.clients.length] ∧
    (s.onClientError cid).2 = [] := by
  refine ⟨?_, ?_, ?_, rfl, rfl⟩
  · intro c hc hne
    constructor
    · show c ∈ s.clients.filter fun c => c.cid ≠ cid
      exact List.mem_filter.mpr ⟨hc, by simpa using hne⟩
    · show c ∈ s.clients.filter fun c => c.cid ≠ cid
      exact List.mem_filter.mpr ⟨hc, by simpa using hne⟩
  · intro c hc
    have := List.mem_filter.mp hc
    simpa using this.2
  · intro c hc
    have := List.mem_filter.mp hc
    simpa using this.2

/-- Witness for `close_error_prune_clients`: closing client 0 of a
two-client server keeps client 1 and emits `client:disconnect` with count 1;
an error on client 0 keeps client 1 and emits nothing. -/
theorem close_error_prune_clients_witness :
    ((⟨0, ReadyState.OPEN, []⟩ : Conn) ∈
      ((⟨[⟨0, ReadyState.OPEN, []⟩, ⟨1, ReadyState.OPEN, []⟩]⟩ :
          DevWebSocketServer).onClientClose 1).1.clients) ∧
    ((⟨0, ReadyState.OPEN, []⟩ : Conn) ∈
      ((⟨[⟨0, ReadyState.OPEN, []⟩, ⟨1, ReadyState.OPEN, []⟩]⟩ :
          DevWebSocketServer).onClientError 1).1.clients) ∧
    ((⟨[⟨0, ReadyState.OPEN, []⟩, ⟨1, ReadyState.OPEN, []⟩]⟩ :
        DevWebSocketServer).onClientClose 1).2 =
      [Notification.clientDisconnect 1] := by
  have h := close_error_prune_clients
    (⟨[⟨0, ReadyState.OPEN, []⟩, ⟨1, ReadyState.OPEN, []⟩]⟩ :
      DevWebSocketServer) 1
  have hm := h.1 ⟨0, ReadyState.OPEN, []⟩ (by simp) (by decide)
  refine ⟨hm.1, hm.2, ?_⟩
  have := h.2.2.2.1
  simpa using this

theorem probePorts_ok (bind : Nat → BindOutcome) (sp : Nat) :
    ∀ (k r port : Nat), k < r →
      (∀ i, i < k → bind (port + i) = BindOutcome.addrInUse) →
      bind (port + k) = BindOutcome.ok →
      probePorts bind sp port r = PortResult.server (port + k) := by
  intro k
  induction k with
  | zero =>
    intro r port hr _ hok
    obtain ⟨r', rfl⟩ : ∃ r', r = r' + 1 := ⟨r - 1, by omega⟩
    simp only [Nat.add_zero] at hok
    rw [probePorts, hok]
    simp
  | succ k ih =>
    intro r port hr hbusy hok
    obtain ⟨r', rfl⟩ : ∃ r', r = r' + 1 := ⟨r - 1, by omega⟩
    have h0 : bind port = BindOutcome.addrInUse := by
      simpa using hbusy 0 (by omega)
    rw [probePorts, h0]
    have harg : port + (k + 1) = port + 1 + k := by omega
    rw [harg]
    refine ih r' (port + 1) (by omega) ?_ ?_
    · intro i hi
      have := hbusy (i + 1) (by omega)
      have e : port + (i + 1) = port + 1 + i := by omega
      rwa [e] at this
    · have e : port + (k + 1) = port + 1 + k := by omega
      rwa [e] at hok

theorem probePorts_err (bind : Nat → BindOutcome) (sp : Nat) (msg : String) :
    ∀ (k r port : Nat), k < r →
      (∀ i, i < k → bind (port + i) = BindOutcome.addrInUse) →
      bind (port + k) = BindOutcome.otherError msg →
      probePorts bind sp port r = PortResult.errorThrown msg := by
  intro k
  induction k with
  | zero =>
    intro r port hr _ herr
    obtain ⟨r', rfl⟩ : ∃ r', r = r' + 1 := ⟨r - 1, by omega⟩
    simp only [Nat.add_zero] at herr
    rw [probePorts, herr]
  | succ k ih =>
    intro r port hr hbusy herr
    obtain ⟨r', rfl⟩ : ∃ r', r = r' + 1 := ⟨r - 1, by omega⟩
    have h0 : bind port = BindOutcome.addrInUse := by
      simpa using hbusy 0 (by omega)
    rw [probePorts, h0]
    refine ih r' (port + 1) (by omega) ?_ ?_
    · intro i hi
      have := hbusy (i + 1) (by omega)
      have e : port + (i + 1) = port + 1 + i := by omega
      rwa [e] at this
    · have e : port + (k + 1) = port + 1 + k := by omega
      rwa [e] at herr

theorem probePorts_exhaust (bind : Nat → BindOutcome) (sp : Nat) :
    ∀ (r port : Nat),
      (∀ i, i < r → bind (port + i) = BindOutcome.addrInUse) →
      probePorts bind sp port r = PortResult.exhausted sp := by
  intro r
  induction r with
  | zero => intro port _; rfl
  | succ r ih =>
    intro port h
    have h0 : bind port = BindOutcome.addrInUse := by
      simpa using h 0 (by omega)
    rw [probePorts, h0]
    refine ih (port + 1) ?_
    intro i hi
    have := h (i + 1) (by omega)
    have e : port + (i + 1) = port + 1 + i := by omega
    rwa [e] at this

theorem probedPorts_step_inUse (bind : Nat → BindOutcome) (port r : Nat)
    (h : bind port = BindOutcome.addrInUse) :
    probedPorts bind port (r + 1) = port :: probedPorts bind (port + 1) r := by
  rw [probedPorts, h]

theorem probedPorts_step_ok (bind : Nat → BindOutcome) (port r : Nat)
    (h : bind port = BindOutcome.ok) :
    probedPorts bind port (r + 1) = [port] := by
  rw [probedPorts, h]

/-- C3: port probing is sequential from `startPort`: after `k` consecutive
in-use ports a successful bind returns a server on `startPort + k`; a bind
failure that is not address-in-use surfaces immediately as the thrown error;
100 consecutive in-use failures exhaust the range, failing with the error
naming `startPort`; and in the concrete scenario — `P` and `P + 1` in use,
`P + 2` free — the server binds `P + 2` and the ports attempted are exactly
`[P, P + 1, P + 2]`. -/
theorem port_probing_sequential (bind : Nat → BindOutcome) (P : Nat) :
    (∀ k, k < 100 → (∀ i, i < k → bind (P + i) = BindOutcome.addrInUse) →
       bind (P + k) = BindOutcome.ok →
       createDevWebSocketServer bind P = PortResult.server (P + k)) ∧
    (∀ k msg, k < 100 → (∀ i, i < k → bind (P + i) = BindOutcome.addrInUse) →
       bind (P + k) = BindOutcome.otherError msg →
       createDevWebSocketServer bind P = PortResult.errorThrown msg) ∧
    ((∀ i, i < 100 → bind (P + i) = BindOutcome.addrInUse) →
       createDevWebSocketServer bind P = PortResult.exhausted P) ∧
    (bind P = BindOutcome.addrInUse → bind (P + 1) = BindOutcome.addrInUse →
       bind (P + 2) = BindOutcome.ok →
       createDevWebSocketServer bind P = PortResult.server (P + 2) ∧
       probedPorts bind P 100 = [P, P + 1, P + 2]) := by
  refine ⟨?_, ?_, ?_, ?_⟩
  · intro k hk hbusy hok
    exact probePorts_ok bind P k 100 P hk hbusy hok
  · intro k msg hk hbusy herr
    exact probePorts_err bind P msg k 100 P hk hbusy herr
  · intro hbusy
    exact probePorts_exhaust bind P 100 P hbusy
  · intro h1 h2 h3
    constructor
    · refine probePorts_ok bind P 2 100 P (by omega) ?_ h3
      intro i hi
      have : i = 0 ∨ i = 1 := by omega
      rcases this with rfl | rfl
      · simpa using h1
      · exact h2
    · rw [show (100 : Nat) = 99 + 1 from rfl, probedPorts_step_inUse bind P 99 h1,
          show (99 : Nat) = 98 + 1 from rfl,
          probedPorts_step_inUse bind (P + 1) 98 h2,
          show (98 : Nat) = 97 + 1 from rfl]
      have e : P + 1 + 1 = P + 2 := rfl
      rw [e, probedPorts_step_ok bind (P + 2) 97 h3]

/-- Witness for `port_probing_sequential`: ports 9876 and 9877 busy,
9878 free. -/
theorem port_probing_sequential_witness :
    createDevWebSocketServer
        (fun p => if p = 9876 ∨ p = 9877 then BindOutcome.addrInUse
                  else BindOutcome.ok) 9876 = PortResult.server 9878 ∧
    probedPorts
        (fun p => if p = 9876 ∨ p = 9877 then BindOutcome.addrInUse
                  else BindOutcome.ok) 9876 100 = [9876, 9877, 9878] := by
  have h := (port_probing_sequential
    (fun p => if p = 9876 ∨ p = 9877 then BindOutcome.addrInUse
              else BindOutcome.ok) 9876).2.2.2
    (by decide) (by decide) (by decide)
  exact ⟨h.1, h.2⟩

/-- C4 (counterexample): `<html><body>x</body></html>` is recognized as a
full document, yet the transform returns it unchanged — its result contains
no `<script` at all, hence not the claimed single adapter-script injection —
because the injection replaces the literal marker `<head>`, which this
document lacks. -/
theorem full_document_without_head_cex :
    isFullHtmlDocument "<html><body>x</body></html>".toList = true ∧
    transformIndexHtml none "SDKSCRIPT".toList
        "<html><body>x</body></html>".toList =
      "<html><body>x</body></html>".toList ∧
    splitFirst "<script".toList "<html><body>x</body></html>".toList = none := by
  refine ⟨by decide, by decide, by decide⟩

/-- C4 (amended): when the substituted text is recognized as a full document
and contains the literal `<head>` marker, the adapter script is injected
directly after the first occurrence of that marker (and nowhere else); when
it is recognized as a full document but lacks the marker, the text is served
unchanged with no injection; otherwise the text is wrapped into a full
document whose body holds the original content followed by the script-tag
reference to the widget's script asset. -/
theorem html_injection (te : Option (Str → Str)) (sdk : Str) (html : Str) :
    (∀ pre post : Str, isFullHtmlDocument (processedOf te html) = true →
       splitFirst "<head>".toList (processedOf te html) = some (pre, post) →
       transformIndexHtml te sdk html =
         pre ++ "<head>".toList ++ "<script>".toList ++ sdk ++
           "</script>".toList ++ post ∧
       processedOf te html = pre ++ "<head>".toList ++ post ∧
       (∀ pre2 post2 : Str,
          processedOf te html = pre2 ++ "<head>".toList ++ post2 →
          pre.length ≤ pre2.length)) ∧
    (isFullHtmlDocument (processedOf te html) = true →
       splitFirst "<head>".toList (processedOf te html) = none →
       transformIndexHtml te sdk html = processedOf te html) ∧
    (isFullHtmlDocument (processedOf te html) = false →
       transformIndexHtml te sdk html =
         wrapHead ++ sdk ++ wrapMid ++ processedOf te html ++ wrapTail) := by
  refine ⟨?_, ?_, ?_⟩
  · intro pre post hfull hsplit
    refine ⟨?_, splitFirst_append _ _ _ _ hsplit,
      fun pre2 post2 h2 => splitFirst_min _ _ _ _ hsplit pre2 post2 h2⟩
    rw [transformIndexHtml, if_pos hfull, replaceFirst, hsplit]
    have e : ("<head><script>".toList : Str) =
        "<head>".toList ++ "<script>".toList := rfl
    rw [e]
    simp [List.append_assoc]
  · intro hfull hnone
    rw [transformIndexHtml, if_pos hfull, replaceFirst, hnone]
  · intro hfull
    rw [transformIndexHtml, if_neg (by simp [hfull]), wrapWidgetHtml]

/-- Witness for `html_injection`: the script lands directly after `<head>`
in a minimal full document. -/
theorem html_injection_witness :
    transformIndexHtml none "S".toList "<html><head></head></html>".toList =
      "<html>".toList ++ "<head>".toList ++ "<script>".toList ++ "S".toList ++
        "</script>".toList ++ "</head></html>".toList :=
  ((html_injection none "S".toList "<html><head></head></html>".toList).1
    "<html>".toList "</head></html>".toList (by decide) (by decide)).1

end EekoCli
